import Mathlib

/-!
Verification of the terminal-light background-color detection engine.

The orchestrator (`background_color`, `luma`) is embedded from `src/lib.rs`.
The strategy implementations (`xterm::query_bg_color` in `xterm.rs`,
`env::bg_color` in `env.rs`, the `TlError` enum in `error.rs`, and the
color/luma arithmetic supplied by the `coolor` dependency) are not part of
the provided sources; they are modelled from the specification, with each
such definition marked `Modelled from the spec`.
-/

namespace TermLight

deriving instance DecidableEq for Except

/-- Modelled from the spec: the `TlError` enum of `error.rs` —
`Unsupported` (no strategy produced a result), `Timeout` (deadline elapsed),
`Parse` (malformed reply/variable), `Io` (stream failure). -/
inductive TlError where
  | Unsupported
  | Timeout
  | Parse
  | Io
deriving DecidableEq, Repr

/-- Modelled from the spec: the `Color` type of the `coolor` dependency —
a tagged union of an ANSI 256-color index and an RGB triple. -/
inductive Color where
  | Ansi (n : Nat)
  | Rgb (c : Nat × Nat × Nat)
deriving DecidableEq, Repr

/-- Embedding of `background_color` from `src/lib.rs` (lines 103–116).
The two effectful strategy calls are passed in as their outcomes:
`unixLike` stands for the `#[cfg(unix)]` conditional, `xtermColor` for the
result of `xterm::query_bg_color()` and `envColor` for the result of
`env::bg_color()`. The control flow mirrors the source: on unix, a
successful terminal query returns `Color::Rgb` at once; otherwise the
environment fallback is consulted; if it also fails the function returns
`TlError::Unsupported`. -/
def background_color (unixLike : Bool)
    (xtermColor : Except TlError (Nat × Nat × Nat))
    (envColor : Except TlError Nat) : Except TlError Color :=
  if unixLike then
    match xtermColor with
    | .ok c => .ok (Color.Rgb c)
    | .error _ =>
      match envColor with
      | .ok n => .ok (Color.Ansi n)
      | .error _ => .error TlError.Unsupported
  else
    match envColor with
    | .ok n => .ok (Color.Ansi n)
    | .error _ => .error TlError.Unsupported

/-- Modelled from the spec: the RGB luma formula of the `coolor` dependency,
`0.2126*r + 0.7152*g + 0.0722*b` with channels first normalized to `[0,1]`,
computed over exact rationals in place of `f32`. -/
def lumaFormula (r g b : ℚ) : ℚ :=
  (2126 : ℚ) / 10000 * (r / 255) + (7152 : ℚ) / 10000 * (g / 255)
    + (722 : ℚ) / 10000 * (b / 255)

/-- Modelled from the spec: luma of an RGB triple, clamped to `[0,1]`. -/
def lumaRgb (r g b : Nat) : ℚ :=
  min 1 (max 0 (lumaFormula (r : ℚ) (g : ℚ) (b : ℚ)))

/-- Modelled from the spec: the 16 basic colors of the standard 256-color
palette, used to map a low ANSI index to RGB. -/
def ansiBase16 : List (Nat × Nat × Nat) :=
  [(0,0,0), (128,0,0), (0,128,0), (128,128,0),
   (0,0,128), (128,0,128), (0,128,128), (192,192,192),
   (128,128,128), (255,0,0), (0,255,0), (255,255,0),
   (0,0,255), (255,0,255), (0,255,255), (255,255,255)]

/-- Modelled from the spec: one coordinate of the 6×6×6 color cube. -/
def cubeLevel (c : Nat) : Nat :=
  if c = 0 then 0 else 40 * c + 55

/-- Modelled from the spec: the standard 256-color-index → RGB mapping
(16 basic colors, 6×6×6 cube for 16–231, grayscale ramp for 232–255). -/
def ansiToRgb (n : Nat) : Nat × Nat × Nat :=
  if n < 16 then ansiBase16.getD n (0, 0, 0)
  else if n < 232 then
    let m := n - 16
    (cubeLevel (m / 36), cubeLevel (m / 6 % 6), cubeLevel (m % 6))
  else
    let g := 8 + 10 * (n - 232)
    (g, g, g)

/-- Modelled from the spec: `Color::luma` of the `coolor` dependency — the
RGB formula, applied after the index → RGB mapping for the ANSI variant. -/
def colorLuma : Color → ℚ
  | .Rgb (r, g, b) => lumaRgb r g b
  | .Ansi n =>
    match ansiToRgb n with
    | (r, g, b) => lumaRgb r g b

/-- Embedding of `luma` from `src/lib.rs` (lines 124–126):
`background_color().map(|c| c.luma())`. -/
def luma (unixLike : Bool)
    (xtermColor : Except TlError (Nat × Nat × Nat))
    (envColor : Except TlError Nat) : Except TlError ℚ :=
  (background_color unixLike xtermColor envColor).map colorLuma

/-- Modelled from the spec: splitting a character list on the separator
`;`, with the semantics of Rust's `str::split`: the empty list yields one
empty field, and every separator occurrence starts a new field. -/
def splitSemi : List Char → List (List Char)
  | [] => [[]]
  | c :: rest =>
    if c = ';' then [] :: splitSemi rest
    else
      match splitSemi rest with
      | [] => [[c]]
      | h :: t => (c :: h) :: t

/-- Modelled from the spec: parsing one field of the environment variable as
a decimal non-negative integer representable as a single byte; any
non-digit character, an empty field, or a value above 255 is rejected. -/
def parseByteDec (s : List Char) : Option Nat :=
  if s = [] then none
  else if s.all (fun c => c.isDigit) then
    let v := s.foldl (fun acc c => acc * 10 + (c.toNat - 48)) 0
    if v < 256 then some v else none
  else none

/-- Modelled from the spec: `env::bg_color` of `env.rs` — reads the
designated environment variable (its looked-up value is passed in as an
`Option`), fails with `Unsupported` when it is unset or empty, splits on
`;`, fails with `Parse` unless there are exactly two byte-valued decimal
fields, and returns the second field as the ANSI background index. -/
def env_bg_color (v : Option (List Char)) : Except TlError Nat :=
  match v with
  | none => .error TlError.Unsupported
  | some s =>
    if s = [] then .error TlError.Unsupported
    else
      match splitSemi s with
      | [fg, bg] =>
        match parseByteDec fg, parseByteDec bg with
        | some _, some b => .ok b
        | _, _ => .error TlError.Parse
      | _ => .error TlError.Parse

/-- Modelled from the spec: the value of one hexadecimal digit byte,
accepting both letter cases. -/
def hexVal (b : Nat) : Option Nat :=
  if 48 ≤ b ∧ b ≤ 57 then some (b - 48)
  else if 97 ≤ b ∧ b ≤ 102 then some (b - 87)
  else if 65 ≤ b ∧ b ≤ 70 then some (b - 55)
  else none

/-- Modelled from the spec: the 16-bit value of one 4-hex-digit color
channel. -/
def channelVal (a b c d : Nat) : Option Nat :=
  match hexVal a, hexVal b, hexVal c, hexVal d with
  | some x, some y, some z, some w => some (((x * 16 + y) * 16 + z) * 16 + w)
  | _, _, _, _ => none

/-- The byte prefix of a background reply, `ESC ] 1 1 ; r g b :`. -/
def replyPrefix : List Nat := [27, 93, 49, 49, 59, 114, 103, 98, 58]

/-- Modelled from the spec: removing the recognized reply terminator, `BEL`
or `ESC \`, yielding the channel body; `none` when neither terminator is
present. -/
def stripTerminator (l : List Nat) : Option (List Nat) :=
  if l.getLast? = some 7 then some l.dropLast
  else if l.length ≥ 2 ∧ l.drop (l.length - 2) = [27, 92] then
    some (l.take (l.length - 2))
  else none

/-- Modelled from the spec: decoding a background reply
`ESC ] 11 ; rgb:RRRR/GGGG/BBBB <BEL|ESC \>` — check the prefix, strip the
terminator, require exactly three slash-separated 4-hex-digit channels, and
normalize each 16-bit channel to 8 bits by taking its high byte. -/
def decodeReply (bytes : List Nat) : Option (Nat × Nat × Nat) :=
  if bytes.take 9 = replyPrefix then
    match stripTerminator (bytes.drop 9) with
    | none => none
    | some body =>
      match body with
      | [a1, a2, a3, a4, s1, b1, b2, b3, b4, s2, c1, c2, c3, c4] =>
        if s1 = 47 ∧ s2 = 47 then
          match channelVal a1 a2 a3 a4, channelVal b1 b2 b3 b4,
              channelVal c1 c2 c3 c4 with
          | some v1, some v2, some v3 => some (v1 / 256, v2 / 256, v3 / 256)
          | _, _, _ => none
        else none
      | _ => none
  else none

/-- Modelled from the spec: `parse_background_reply` — the decoded channel
triple on a well-formed reply, and the error `Parse` when the
prefix, terminator or channel layout does not match. -/
def parse_background_reply (bytes : List Nat) :
    Except TlError (Nat × Nat × Nat) :=
  match decodeReply bytes with
  | some v => .ok v
  | none => .error TlError.Parse

/-- The lower-case hexadecimal digit byte of a value below 16. -/
def hexDig (n : Nat) : Nat :=
  if n < 10 then n + 48 else n + 87

/-- One 4-hex-digit channel encoding an 8-bit value `c`, the 16-bit pattern
`c * 257` whose high byte is `c` again. -/
def encodeChannel (c : Nat) : List Nat :=
  [hexDig (c / 16), hexDig (c % 16), hexDig (c / 16), hexDig (c % 16)]

/-- A well-formed background reply carrying the channels `(r, g, b)`,
closed by the given terminator bytes. -/
def encode_reply (r g b : Nat) (term : List Nat) : List Nat :=
  replyPrefix ++ encodeChannel r ++ [47] ++ encodeChannel g ++ [47]
    ++ encodeChannel b ++ term

/-- The channel portion of a well-formed reply, `RRRR/GGGG/BBBB`. -/
def replyBody (r g b : Nat) : List Nat :=
  encodeChannel r ++ [47] ++ encodeChannel g ++ [47] ++ encodeChannel b

lemma hexVal_hexDig (n : Nat) (h : n < 16) : hexVal (hexDig n) = some n := by
  interval_cases n <;> rfl

lemma channelVal_encodeChannel (c : Nat) (h : c < 256) :
    channelVal (hexDig (c / 16)) (hexDig (c % 16)) (hexDig (c / 16))
      (hexDig (c % 16)) = some (257 * c) := by
  have h1 : c / 16 < 16 := by omega
  have h2 : c % 16 < 16 := by omega
  rw [channelVal, hexVal_hexDig _ h1, hexVal_hexDig _ h2]
  have : (c / 16 * 16 + c % 16) * 16 * 16 + (c / 16 * 16 + c % 16) = 257 * c := by
    omega
  simp only [Option.some.injEq]
  omega

lemma stripTerminator_bel (l : List Nat) :
    stripTerminator (l ++ [7]) = some l := by
  rw [stripTerminator, List.getLast?_concat]
  simp [List.dropLast_concat]

lemma stripTerminator_st (l : List Nat) :
    stripTerminator (l ++ [27, 92]) = some l := by
  have hsplit : l ++ [27, 92] = (l ++ [27]) ++ [92] := by
    simp [List.append_assoc]
  have hlast : (l ++ [27, 92]).getLast? = some 92 := by
    rw [hsplit, List.getLast?_concat]
  have hlen : (l ++ [27, 92]).length = l.length + 2 := by simp
  rw [stripTerminator, hlast]
  have hd : (l ++ [27, 92]).drop ((l ++ [27, 92]).length - 2) = [27, 92] :=
    List.drop_left' (by simp)
  have ht : (l ++ [27, 92]).take ((l ++ [27, 92]).length - 2) = l :=
    List.take_left' (by simp)
  simp [hlen, hd, ht]

lemma decodeReply_encode_reply (r g b : Nat) (hr : r < 256) (hg : g < 256)
    (hb : b < 256) (term : List Nat)
    (hterm : stripTerminator (replyBody r g b ++ term) = some (replyBody r g b)) :
    decodeReply (encode_reply r g b term) = some (r, g, b) := by
  have he : encode_reply r g b term = replyPrefix ++ (replyBody r g b ++ term) := by
    simp [encode_reply, replyBody, List.append_assoc]
  have ht9 : (replyPrefix ++ (replyBody r g b ++ term)).take 9 = replyPrefix :=
    List.take_left' rfl
  have hd9 : (replyPrefix ++ (replyBody r g b ++ term)).drop 9
      = replyBody r g b ++ term :=
    List.drop_left' rfl
  have hbody : replyBody r g b =
      [hexDig (r / 16), hexDig (r % 16), hexDig (r / 16), hexDig (r % 16), 47,
       hexDig (g / 16), hexDig (g % 16), hexDig (g / 16), hexDig (g % 16), 47,
       hexDig (b / 16), hexDig (b % 16), hexDig (b / 16), hexDig (b % 16)] := by
    simp [replyBody, encodeChannel]
  rw [he, decodeReply]
  rw [ht9, hd9, if_pos rfl, hterm, hbody]
  simp only [channelVal_encodeChannel r hr, channelVal_encodeChannel g hg,
    channelVal_encodeChannel b hb, if_pos (And.intro rfl rfl)]
  have hv : ∀ c : Nat, c < 256 → 257 * c / 256 = c := by
    intro c hc
    omega
  rw [hv r hr, hv g hg, hv b hb]
  simp

/-- Modelled from the spec: the outbound OSC 11 background query,
`ESC ] 11 ; ? BEL`. -/
def bg_query : List Nat := [27, 93, 49, 49, 59, 63, 7]

/-- Modelled from the spec: the outbound DSR status probe, `ESC [ 5 n`. -/
def status_probe : List Nat := [27, 91, 53, 110]

/-- Modelled from the spec: `parse_status_reply` recognizes the Device
Status Report acknowledgment `ESC [ 0 n`. -/
def parse_status_reply (buf : List Nat) : Bool :=
  buf = [27, 91, 48, 110]

/-- Modelled from the spec: one poll iteration of the input stream either
yields a byte, yields nothing yet, or fails with a read error. -/
inductive PollEvent where
  | byte (b : Nat)
  | quiet
  | readErr
deriving DecidableEq, Repr

/-- Modelled from the spec: the poll loop of the Timeout Race Controller.
Bytes are accumulated across iterations into `buf`; on each accumulation
both parsers are attempted, the first full match winning: a parsed
background reply returns its color, a status reply seen first returns
`Unsupported` immediately, a terminated but malformed reply returns
`Parse`, a read error returns `Io`, and an exhausted deadline (`fuel`
poll iterations) returns `Timeout`. The second component counts the poll
iterations actually spent. -/
def raceLoopAux (buf : List Nat) (input : List PollEvent) (fuel : Nat)
    (steps : Nat) : Except TlError (Nat × Nat × Nat) × Nat :=
  match fuel with
  | 0 => (.error TlError.Timeout, steps)
  | fuel' + 1 =>
    match input with
    | [] => raceLoopAux buf [] fuel' (steps + 1)
    | ev :: rest =>
      match ev with
      | .readErr => (.error TlError.Io, steps + 1)
      | .quiet => raceLoopAux buf rest fuel' (steps + 1)
      | .byte b =>
        match parse_background_reply (buf ++ [b]) with
        | .ok c => (.ok c, steps + 1)
        | .error _ =>
          if parse_status_reply (buf ++ [b]) then
            (.error TlError.Unsupported, steps + 1)
          else if (stripTerminator (buf ++ [b])).isSome then
            (.error TlError.Parse, steps + 1)
          else raceLoopAux (buf ++ [b]) rest fuel' (steps + 1)

/-- Modelled from the spec: the terminal input mode — line buffering and
echo flags. -/
structure TermMode where
  echo : Bool
  canonical : Bool
deriving DecidableEq, Repr

/-- Modelled from the spec: raw mode — line buffering and echo disabled. -/
def rawMode : TermMode := ⟨false, false⟩

/-- Modelled from the spec: the observable terminal state — its mode, the
pending input events and the bytes written to the output stream. -/
structure Term where
  mode : TermMode
  input : List PollEvent
  output : List Nat
deriving DecidableEq, Repr

/-- Modelled from the spec: `xterm::query_bg_color` as a state transformer.
It saves the prior mode, switches to raw mode, writes the background query
and then the status probe as one flush, runs the poll race, and on every
exit path — success, `Unsupported` fast-fail, `Timeout`, `Parse`, `Io` —
restores the saved mode before returning. -/
def query_bg_color (fuel : Nat) (t : Term) :
    Except TlError (Nat × Nat × Nat) × Term :=
  let saved := t.mode
  let sent : Term :=
    { t with mode := rawMode, output := t.output ++ bg_query ++ status_probe }
  match raceLoopAux [] sent.input fuel 0 with
  | (.ok c, steps) =>
    (.ok c, { sent with input := sent.input.drop steps, mode := saved })
  | (.error TlError.Unsupported, steps) =>
    (.error TlError.Unsupported,
      { sent with input := sent.input.drop steps, mode := saved })
  | (.error TlError.Timeout, steps) =>
    (.error TlError.Timeout,
      { sent with input := sent.input.drop steps, mode := saved })
  | (.error TlError.Parse, steps) =>
    (.error TlError.Parse,
      { sent with input := sent.input.drop steps, mode := saved })
  | (.error TlError.Io, steps) =>
    (.error TlError.Io,
      { sent with input := sent.input.drop steps, mode := saved })

/-- The inbound status-report acknowledgment as a sequence of poll
events. -/
def statusReplyEvents : List PollEvent :=
  [.byte 27, .byte 91, .byte 48, .byte 110]

/-- C1: `background_color` follows the fixed strategy precedence: on unix a
successful terminal query returns its color as `Color::Rgb`; otherwise
(non-unix, or any terminal-query failure) a successful environment fallback
returns its index as `Color::Ansi`; if both strategies fail the result is
an error. -/
theorem background_color_precedence
    (c : Nat × Nat × Nat) (n : Nat) (e e' : TlError)
    (ee : Except TlError Nat) (xe : Except TlError (Nat × Nat × Nat)) :
    background_color true (.ok c) ee = .ok (Color.Rgb c)
    ∧ background_color true (.error e) (.ok n) = .ok (Color.Ansi n)
    ∧ background_color false xe (.ok n) = .ok (Color.Ansi n)
    ∧ (∃ err, background_color true (.error e) (.error e') = .error err)
    ∧ (∃ err, background_color false xe (.error e') = .error err) :=
  ⟨rfl, rfl, rfl, ⟨TlError.Unsupported, rfl⟩, ⟨TlError.Unsupported, rfl⟩⟩

/-- C2: whenever no strategy produces a color, `background_color` returns
exactly `Unsupported`, whatever the intermediate strategy errors were. -/
theorem background_color_collapses_to_unsupported
    (e e' : TlError) (xe : Except TlError (Nat × Nat × Nat)) :
    background_color true (.error e) (.error e') = .error TlError.Unsupported
    ∧ background_color false xe (.error e') = .error TlError.Unsupported :=
  ⟨rfl, rfl⟩

/-- C3: `luma` is the composition of `background_color` with the per-color
luma function: an `Ok c` becomes `Ok (colorLuma c)` and an `Err e` is
propagated unchanged. -/
theorem luma_is_background_color_mapped
    (unixLike : Bool) (xe : Except TlError (Nat × Nat × Nat))
    (ee : Except TlError Nat) :
    (∀ c, background_color unixLike xe ee = .ok c →
      luma unixLike xe ee = .ok (colorLuma c))
    ∧ (∀ e, background_color unixLike xe ee = .error e →
      luma unixLike xe ee = .error e) := by
  constructor
  · intro c h
    simp [luma, h, Except.map]
  · intro e h
    simp [luma, h, Except.map]

/-- Witness for C3 at concrete strategy outcomes. -/
theorem luma_is_background_color_mapped_witness :
    luma false (.error TlError.Timeout) (.ok 0) = .ok (colorLuma (Color.Ansi 0))
    ∧ luma true (.error TlError.Timeout) (.error TlError.Parse)
        = .error TlError.Unsupported :=
  ⟨(luma_is_background_color_mapped false (.error TlError.Timeout) (.ok 0)).1
      (Color.Ansi 0) rfl,
   (luma_is_background_color_mapped true (.error TlError.Timeout)
      (.error TlError.Parse)).2 TlError.Unsupported rfl⟩

/-- C5: `env_bg_color` parses `"<fg>;<bg>"`: when the value splits on `;`
into exactly two byte-valued decimal fields it returns the second as the
ANSI index; a wrong field count or a non-byte field gives `Parse`; an
unset or empty variable gives `Unsupported`; in particular `"15;0"` yields
index 0, `"7;15"` yields 15 and `"abc;0"` is a `Parse` failure. -/
theorem env_bg_color_spec (s fg bg : List Char) (f g : Nat) :
    (splitSemi s = [fg, bg] → parseByteDec fg = some f →
      parseByteDec bg = some g → env_bg_color (some s) = .ok g)
    ∧ (s ≠ [] → (splitSemi s).length ≠ 2 →
      env_bg_color (some s) = .error TlError.Parse)
    ∧ (s ≠ [] → splitSemi s = [fg, bg] → parseByteDec fg = none →
      env_bg_color (some s) = .error TlError.Parse)
    ∧ (s ≠ [] → splitSemi s = [fg, bg] → parseByteDec bg = none →
      env_bg_color (some s) = .error TlError.Parse)
    ∧ env_bg_color none = .error TlError.Unsupported
    ∧ env_bg_color (some []) = .error TlError.Unsupported
    ∧ env_bg_color (some ['1', '5', ';', '0']) = .ok 0
    ∧ env_bg_color (some ['7', ';', '1', '5']) = .ok 15
    ∧ env_bg_color (some ['a', 'b', 'c', ';', '0']) = .error TlError.Parse := by
  refine ⟨?_, ?_, ?_, ?_, rfl, rfl, by decide, by decide, by decide⟩
  · intro h1 h2 h3
    rcases eq_or_ne s [] with rfl | hs
    · simp [splitSemi] at h1
    · simp [env_bg_color, hs, h1, h2, h3]
  · intro hs hlen
    rcases h : splitSemi s with _ | ⟨a, _ | ⟨b, _ | ⟨c, t⟩⟩⟩
    · simp [env_bg_color, hs, h]
    · simp [env_bg_color, hs, h]
    · exact absurd (by rw [h]; rfl) hlen
    · simp [env_bg_color, hs, h]
  · intro hs h1 h2
    simp [env_bg_color, hs, h1, h2]
  · intro hs h1 h2
    rcases h3 : parseByteDec fg with _ | v <;>
      simp [env_bg_color, hs, h1, h2, h3]

/-- Witness for C5: the general clauses applied at concrete variable
values. -/
theorem env_bg_color_spec_witness :
    env_bg_color (some ['1', '5', ';', '0']) = .ok 0
    ∧ env_bg_color (some ['a', ';', '0']) = .error TlError.Parse :=
  ⟨(env_bg_color_spec ['1', '5', ';', '0'] ['1', '5'] ['0'] 15 0).1
      (by decide) (by decide) (by decide),
   (env_bg_color_spec ['a', ';', '0'] ['a'] ['0'] 0 0).2.2.1
      (by decide) (by decide) (by decide)⟩

/-- C6: round-trip — encoding any 8-bit `(r, g, b)` into a well-formed
background reply, with either recognized terminator, and parsing it back
returns the same channel values. -/
theorem parse_background_reply_roundtrip (r g b : Nat)
    (hr : r < 256) (hg : g < 256) (hb : b < 256) :
    parse_background_reply (encode_reply r g b [7]) = .ok (r, g, b)
    ∧ parse_background_reply (encode_reply r g b [27, 92]) = .ok (r, g, b) := by
  constructor
  · simp [parse_background_reply,
      decodeReply_encode_reply r g b hr hg hb [7] (stripTerminator_bel _)]
  · simp [parse_background_reply,
      decodeReply_encode_reply r g b hr hg hb [27, 92] (stripTerminator_st _)]

/-- Witness for C6 at a concrete channel triple. -/
theorem parse_background_reply_roundtrip_witness :
    parse_background_reply (encode_reply 171 64 255 [7]) = .ok (171, 64, 255)
    ∧ parse_background_reply (encode_reply 171 64 255 [27, 92])
        = .ok (171, 64, 255) :=
  parse_background_reply_roundtrip 171 64 255 (by decide) (by decide) (by decide)

/-- C7: `parse_background_reply` has `Parse` as its only failure value, and
fails with `Parse` on truncated input, a wrong prefix, a wrong terminator,
and a wrong number of color channels. -/
theorem parse_background_reply_failure_modes :
    (∀ bytes, (∃ v, parse_background_reply bytes = .ok v)
      ∨ parse_background_reply bytes = .error TlError.Parse)
    ∧ parse_background_reply ((encode_reply 16 32 48 [7]).take 12)
        = .error TlError.Parse
    ∧ parse_background_reply (91 :: (encode_reply 16 32 48 [7]).drop 1)
        = .error TlError.Parse
    ∧ parse_background_reply (encode_reply 16 32 48 [13])
        = .error TlError.Parse
    ∧ parse_background_reply
        (replyPrefix ++ encodeChannel 16 ++ [47] ++ encodeChannel 32 ++ [7])
        = .error TlError.Parse := by
  refine ⟨?_, by decide, by decide, by decide, by decide⟩
  intro bytes
  cases h : decodeReply bytes with
  | none =>
    right
    simp [parse_background_reply, h]
  | some v =>
    left
    exact ⟨v, by simp [parse_background_reply, h]⟩

/-- C4: when a complete status-report reply arrives before any
background-reply bytes, the race resolves to `Unsupported` after exactly
the four polls that read it, for every remaining input and every deadline
of at least four polls — it does not wait out the rest of the timeout. -/
theorem race_status_reply_fast_fail (f : Nat) (rest : List PollEvent)
    (m : TermMode) (o : List Nat) :
    raceLoopAux [] (statusReplyEvents ++ rest) (f + 4) 0
      = (.error TlError.Unsupported, 4)
    ∧ (query_bg_color (f + 4) ⟨m, statusReplyEvents ++ rest, o⟩).1
      = .error TlError.Unsupported := by
  constructor
  · rfl
  · rfl

/-- C8: on every exit path of `query_bg_color` — successful parse,
`Unsupported` fast-fail, `Timeout`, `Parse` failure and `Io` error — the
terminal mode after the call equals the mode in effect before it. -/
theorem query_bg_color_restores_mode (fuel : Nat) (t : Term) :
    ((query_bg_color fuel t).2).mode = t.mode := by
  rcases h : raceLoopAux [] t.input fuel 0 with ⟨res, steps⟩
  cases res with
  | ok c => simp [query_bg_color, h]
  | error e => cases e <;> simp [query_bg_color, h]

lemma lumaFormula_nonneg (r g b : Nat) : 0 ≤ lumaFormula (r : ℚ) g b := by
  unfold lumaFormula
  positivity

lemma lumaFormula_le_one (r g b : Nat) (hr : r ≤ 255) (hg : g ≤ 255)
    (hb : b ≤ 255) : lumaFormula (r : ℚ) g b ≤ 1 := by
  have h1 : (r : ℚ) / 255 ≤ 1 := by
    rw [div_le_one (by norm_num)]
    exact_mod_cast hr
  have h2 : (g : ℚ) / 255 ≤ 1 := by
    rw [div_le_one (by norm_num)]
    exact_mod_cast hg
  have h3 : (b : ℚ) / 255 ≤ 1 := by
    rw [div_le_one (by norm_num)]
    exact_mod_cast hb
  unfold lumaFormula
  nlinarith [h1, h2, h3]

lemma lumaRgb_eq_formula (r g b : Nat) (hr : r ≤ 255) (hg : g ≤ 255)
    (hb : b ≤ 255) : lumaRgb r g b = lumaFormula (r : ℚ) g b := by
  unfold lumaRgb
  rw [max_eq_right (lumaFormula_nonneg r g b),
    min_eq_right (lumaFormula_le_one r g b hr hg hb)]

lemma lumaRgb_mono_aux {x y : ℚ} (h : x ≤ y) :
    min 1 (max 0 x) ≤ min 1 (max 0 y) :=
  min_le_min (le_refl 1) (max_le_max (le_refl 0) h)

/-- C9: `lumaRgb` is the perceptual weighting
`0.2126*r + 0.7152*g + 0.0722*b` of the channels normalized to `[0,1]`;
its value lies in `[0,1]`; black maps to 0 and white to 1; and it is
monotonic in each channel with the other two held fixed. -/
theorem lumaRgb_spec (r g b r2 g2 b2 : Nat)
    (hr : r ≤ 255) (hg : g ≤ 255) (hb : b ≤ 255) :
    lumaRgb r g b = (2126 : ℚ) / 10000 * ((r : ℚ) / 255)
        + (7152 : ℚ) / 10000 * ((g : ℚ) / 255)
        + (722 : ℚ) / 10000 * ((b : ℚ) / 255)
    ∧ 0 ≤ lumaRgb r g b ∧ lumaRgb r g b ≤ 1
    ∧ lumaRgb 0 0 0 = 0 ∧ lumaRgb 255 255 255 = 1
    ∧ (r ≤ r2 → lumaRgb r g b ≤ lumaRgb r2 g b)
    ∧ (g ≤ g2 → lumaRgb r g b ≤ lumaRgb r g2 b)
    ∧ (b ≤ b2 → lumaRgb r g b ≤ lumaRgb r g b2) := by
  refine ⟨?_, ?_, ?_, ?_, ?_, ?_, ?_, ?_⟩
  · rw [lumaRgb_eq_formula r g b hr hg hb]
    rfl
  · exact le_min (by norm_num) (le_max_left 0 _)
  · exact min_le_left 1 _
  · norm_num [lumaRgb, lumaFormula]
  · norm_num [lumaRgb, lumaFormula]
  · intro h
    apply lumaRgb_mono_aux
    unfold lumaFormula
    have : (r : ℚ) ≤ r2 := by exact_mod_cast h
    gcongr
  · intro h
    apply lumaRgb_mono_aux
    unfold lumaFormula
    have : (g : ℚ) ≤ g2 := by exact_mod_cast h
    gcongr
  · intro h
    apply lumaRgb_mono_aux
    unfold lumaFormula
    have : (b : ℚ) ≤ b2 := by exact_mod_cast h
    gcongr

/-- Witness for C9 at concrete channel values. -/
theorem lumaRgb_spec_witness :
    lumaRgb 10 20 30 ≤ lumaRgb 200 20 30 ∧ 0 ≤ lumaRgb 10 20 30 :=
  ⟨(lumaRgb_spec 10 20 30 200 200 200 (by decide) (by decide)
      (by decide)).2.2.2.2.2.1 (by decide),
   (lumaRgb_spec 10 20 30 200 200 200 (by decide) (by decide)
      (by decide)).2.1⟩

/-- C10: when the unix terminal query succeeds with color `c`, the result of
`background_color` is `Ok (Color::Rgb c)` independently of the environment:
two runs differing only in the environment outcome agree. -/
theorem background_color_env_noninterference
    (c : Nat × Nat × Nat) (ee1 ee2 : Except TlError Nat) :
    background_color true (.ok c) ee1 = .ok (Color.Rgb c)
    ∧ background_color true (.ok c) ee1 = background_color true (.ok c) ee2 :=
  ⟨rfl, rfl⟩

end TermLight
